import Mathlib

/-!
# Package `frame`: dual-mode dispatcher, use case and gateway adapter

A shallow embedding of `src/main.go`.  Go functions become Lean functions of the
same name.  The package touches three pieces of mutable or ambient state, which
are made explicit in `World`:

* the package variable `useCaseCore` (assigned once by `Exec`),
* standard output, as the list of lines written by `fmt.Println`,
* the host runtime: whether `lambda.Start` was reached and what the handler
  answered for each event it was given.

A ghost field `calls` records every argument the provider was invoked with.

External library behaviour is modelled as follows.

* `error` values are represented by their text (`GoError`); a `nil` error is `none`.
* `json.Marshal` is a parameter of the functions that call it (`Marshal`), so that
  its failure branches can be exercised.  `jsonMarshal` is the model of the real
  `encoding/json` on the two struct types of the package, for either release family of
  the toolchain (`Toolchain`).
* Go strings are modelled by Lean strings, i.e. by valid Unicode text; byte strings that
  are not valid UTF-8 are outside the model.
* Go `int` is modelled by `Int`; the package performs no arithmetic on it.
* Calling a `nil` function value panics; a panic is the result `none`.
-/

namespace Frame

/-! ## Go values -/

/-- Go `error` value, represented by the text its `Error()` method returns. -/
structure GoError where
  msg : String
deriving DecidableEq, Repr

/-- Method `Error()` of the `error` interface. -/
def GoError.Error (e : GoError) : String := e.msg

/-- Call `fmt.Errorf(s)` for a format string `s` without verbs: an error whose text is `s`. -/
def Errorf (s : String) : GoError := ⟨s⟩

/-- Go `map[string]string`, as an association list. -/
abbrev GoMap := List (String × String)

/-- Index expression `m[k]` on a `map[string]string`: the zero value `""` when `k` is absent. -/
def GoMap.index (m : GoMap) (k : String) : String :=
  (List.lookup k m).getD ""

/-- Struct `Response` (main.go:13-15). -/
structure Response where
  GoodCount : Int
deriving DecidableEq, Repr

/-- Struct `ErrorResponse` (main.go:18-21). -/
structure ErrorResponse where
  Error : String
  Message : String
deriving DecidableEq, Repr

/-- Struct `events.APIGatewayProxyRequest`; the request context is left out. -/
structure APIGatewayProxyRequest where
  Resource : String := ""
  Path : String := ""
  HTTPMethod : String := ""
  Headers : GoMap := []
  QueryStringParameters : GoMap := []
  PathParameters : GoMap := []
  StageVariables : GoMap := []
  Body : String := ""
  IsBase64Encoded : Bool := false
deriving DecidableEq, Repr

/-- Struct `events.APIGatewayProxyResponse`. -/
structure APIGatewayProxyResponse where
  StatusCode : Int := 0
  Headers : GoMap := []
  MultiValueHeaders : List (String × List String) := []
  Body : String := ""
  IsBase64Encoded : Bool := false
deriving DecidableEq, Repr

/-- Package variable `headers` (main.go:23-27). -/
def headers : GoMap :=
  [("Access-Control-Allow-Origin", "*"),
   ("Access-Control-Allow-Methods", "GET"),
   ("Access-Control-Allow-Headers", "Content-Type")]

/-! ## `encoding/json` -/

/-- The values this package passes to `json.Marshal`. -/
inductive Marshalable where
  | response (r : Response)
  | errorResponse (b : ErrorResponse)
deriving DecidableEq, Repr

/-- An implementation of `json.Marshal`: the encoded text, or an error. -/
abbrev Marshal := Marshalable → Except GoError String

/-- Decimal text of a Go `int`, as `strconv` renders it. -/
def formatInt (n : Int) : String :=
  match n with
  | Int.ofNat m => Nat.repr m
  | Int.negSucc m => "-" ++ Nat.repr (m + 1)

/-- Value of a decimal numeral, read digit by digit from the left: the number a reader
of the output takes a digit string to denote. -/
def decimalValue (cs : List Char) : Nat :=
  cs.foldl (fun acc c => 10 * acc + (c.toNat - 48)) 0

/-- Characters that `encoding/json` copies unchanged into a string literal:
everything except control characters, the quote, the backslash, the three
HTML-sensitive characters, and U+2028 / U+2029. -/
def jsonSafe (c : Char) : Bool :=
  0x20 ≤ c.toNat && c != '"' && c != '\\' && c != '<' && c != '>' && c != '&'
    && c.toNat != 0x2028 && c.toNat != 0x2029

/-- The release family of the Go toolchain the package is built with.  For the texts
modelled here `encoding/json` changed in one point only: up to Go 1.21 the characters
U+0008 and U+000C are written `\u0008` and `\u000c`, from Go 1.22 on `\b` and `\f`.
The source pins no release, so the encoder is modelled for both. -/
inductive Toolchain where
  | before122
  | since122
deriving DecidableEq, Repr

/-- Encoding of one character inside a JSON string literal by `encoding/json`
with HTML escaping on (the default of `json.Marshal`), for a character of valid
UTF-8 text. -/
def jsonEscapeChar (tc : Toolchain) (c : Char) : List Char :=
  if c = '"' ∨ c = '\\' then ['\\', c]
  else if c = '\n' then ['\\', 'n']
  else if c = '\r' then ['\\', 'r']
  else if c = '\t' then ['\\', 't']
  else if c.toNat < 0x20 ∨ c = '<' ∨ c = '>' ∨ c = '&' then
    if tc = Toolchain.since122 ∧ c.toNat = 0x08 then ['\\', 'b']
    else if tc = Toolchain.since122 ∧ c.toNat = 0x0c then ['\\', 'f']
    else ['\\', 'u', '0', '0', Nat.digitChar (c.toNat / 16), Nat.digitChar (c.toNat % 16)]
  else if c.toNat = 0x2028 ∨ c.toNat = 0x2029 then
    ['\\', 'u', '2', '0', '2', Nat.digitChar (c.toNat % 16)]
  else [c]

/-- JSON string literal for the valid UTF-8 text `s`, quotes included. -/
def jsonString (tc : Toolchain) (s : String) : String :=
  "\"" ++ String.mk (s.data.flatMap (jsonEscapeChar tc)) ++ "\""

/-- Model of `json.Marshal` from `encoding/json` on the package's two structs:
fields in declaration order under their `json` tags, no whitespace, never an error. -/
def jsonMarshal (tc : Toolchain) : Marshal
  | .response r => .ok ("\x7b\"goodCount\":" ++ formatInt r.GoodCount ++ "\x7d")
  | .errorResponse b =>
      .ok ("\x7b\"error\":" ++ jsonString tc b.Error ++ ",\"message\":"
            ++ jsonString tc b.Message ++ "\x7d")

/-! ## Process state -/

/-- The count provider handed to `Exec`: a Go `func(string) (int, error)`. -/
abbrev Provider := String → Int × Option GoError

/-- What a handler registered with `lambda.Start` returns: the response and a Go error. -/
abbrev HandlerResult := APIGatewayProxyResponse × Option GoError

/-- State of the process as far as the package reads or writes it. -/
structure World where
  /-- Package variable `useCaseCore` (main.go:29); `none` is the `nil` function value. -/
  useCaseCore : Option Provider := none
  /-- Lines written to standard output by `fmt.Println`, oldest first. -/
  stdout : List String := []
  /-- Ghost log: the argument of every call of `useCaseCore`, oldest first. -/
  calls : List String := []
  /-- Whether `lambda.Start` has been called. -/
  started : Bool := false
  /-- What the registered handler returned for each event served, oldest first. -/
  responses : List HandlerResult := []

/-- Call `fmt.Println(s)` on a single string argument. -/
def Println (s : String) (w : World) : World :=
  { w with stdout := w.stdout ++ [s] }

/-! ## The package's functions -/

/-- Function `isLocal` (main.go:54-65), on the dereferenced flag values. -/
def isLocal (t : Bool) (ID : String) (w : World) : (Bool × Option GoError) × World :=
  if !t then
    ((false, none), w)
  else if ID = "" then
    let w := Println "no exec" w
    ((false, some (Errorf "ローカル実行だがID指定が無いので処理不可能")), w)
  else
    ((true, none), w)

/-- Function `useCase` (main.go:94-109).  The call of `useCaseCore` is logged in `calls`;
calling it while it is `nil` panics. -/
def useCase (json : Marshal) (articleID : String) (w : World) :
    Option ((String × Option GoError) × World) :=
  match w.useCaseCore with
  | none => none
  | some ucc =>
    let (a, err) := ucc articleID
    let w := { w with calls := w.calls ++ [articleID] }
    match err with
    | some _ => some (("", none), w)
    | none =>
      let r : Response := { GoodCount := a }
      match json (.response r) with
      | .error err => some (("", some err), w)
      | .ok jb => some ((jb, none), w)

/-- Function `responseBadRequestError` (main.go:112-134). -/
def responseBadRequestError (json : Marshal) (rerr : GoError) : HandlerResult :=
  let b : ErrorResponse := { Error := "bad request", Message := rerr.Error }
  match json (.errorResponse b) with
  | .error err =>
    let r : APIGatewayProxyResponse := { StatusCode := 500, Headers := headers, Body := err.Error }
    (r, none)
  | .ok jb =>
    let body := jb
    let r : APIGatewayProxyResponse := { StatusCode := 400, Headers := headers, Body := body }
    (r, none)

/-- Function `responseInternalServerError` (main.go:137-159). -/
def responseInternalServerError (json : Marshal) (rerr : GoError) : HandlerResult :=
  let b : ErrorResponse := { Error := "internal server error", Message := rerr.Error }
  match json (.errorResponse b) with
  | .error err =>
    let r : APIGatewayProxyResponse := { StatusCode := 500, Headers := headers, Body := err.Error }
    (r, none)
  | .ok jb =>
    let body := jb
    let r : APIGatewayProxyResponse := { StatusCode := 500, Headers := headers, Body := body }
    (r, none)

/-- Function `responseSuccess` (main.go:162-169). -/
def responseSuccess (body : String) : HandlerResult :=
  let r : APIGatewayProxyResponse := { StatusCode := 200, Headers := headers, Body := body }
  (r, none)

/-- Function `controller` (main.go:78-91). -/
def controller (json : Marshal) (request : APIGatewayProxyRequest) (w : World) :
    Option (HandlerResult × World) :=
  let articleID := request.PathParameters.index "article_id"
  if articleID = "" then
    let err := Errorf "article_id is empty"
    some (responseBadRequestError json err, w)
  else
    match useCase json articleID w with
    | none => none
    | some ((js, err), w) =>
      match err with
      | some err => some (responseInternalServerError json err, w)
      | none => some (responseSuccess js, w)

/-- Function `localController` (main.go:68-75), on the dereferenced ID. -/
def localController (json : Marshal) (ID : String) (w : World) : Option World :=
  match useCase json ID w with
  | none => none
  | some ((js, err), w) =>
    let w := match err with
      | some err => Println err.Error w
      | none => w
    some (Println js w)

/-- The runtime loop behind `lambda.Start(handler)`: each event delivered by the gateway
is passed to the handler and the handler's answer is recorded. -/
def serve (handler : APIGatewayProxyRequest → World → Option (HandlerResult × World)) :
    List APIGatewayProxyRequest → World → Option World
  | [], w => some w
  | ev :: evs, w =>
    match handler ev w with
    | none => none
    | some (r, w) => serve handler evs { w with responses := w.responses ++ [r] }

/-- Call `lambda.Start(handler)`, observed over the finite list `evs` of events the
gateway delivers: the handler is registered, then serves the events in order. -/
def lambdaStart (handler : APIGatewayProxyRequest → World → Option (HandlerResult × World))
    (evs : List APIGatewayProxyRequest) (w : World) : Option World :=
  serve handler evs { w with started := true }

/-- Function `Exec` (main.go:31-51).  The values of the command-line flags `-local` and
`-id` after `flag.Parse()` are the arguments `t` and `ID`; `evs` are the events the gateway
delivers once the handler is registered. -/
def Exec (json : Marshal) (evs : List APIGatewayProxyRequest) (t : Bool) (ID : String)
    (ucc : Option Provider) (w : World) : Option World :=
  let w := { w with useCaseCore := ucc }
  let ((isLocal, err), w) := isLocal t ID w
  match err with
  | some err => some (Println err.Error w)
  | none =>
    if isLocal then
      let w := Println "local" w
      localController json ID w
    else
      let w := Println "production" w
      lambdaStart (controller json) evs w

/-! ## Sample inputs -/

/-- An encoder that fails on every value. -/
def failingMarshal : Marshal := fun _ => .error ⟨"json: unsupported value"⟩

/-- An encoder that fails on `Response` values only and otherwise is `jsonMarshal`. -/
def responseFailingMarshal (tc : Toolchain) : Marshal
  | .response _ => .error ⟨"json: unsupported value"⟩
  | v => jsonMarshal tc v

/-- A provider that always succeeds with count 7. -/
def sevenProvider : Provider := fun _ => (7, none)

/-- A provider that always succeeds with the negative count -12. -/
def negativeProvider : Provider := fun _ => (-12, none)

/-- A provider that always fails, returning the count 3 alongside the error. -/
def downProvider : Provider := fun _ => (3, some ⟨"store unreachable"⟩)

/-- A request whose path parameter `article_id` is "42". -/
def request42 : APIGatewayProxyRequest := { PathParameters := [("article_id", "42")] }

/-! ## Evaluation checks -/

theorem jsonMarshal_response_pos (tc : Toolchain) :
    jsonMarshal tc (.response ⟨7⟩) = .ok "\x7b\"goodCount\":7\x7d" := rfl

theorem jsonMarshal_response_neg (tc : Toolchain) :
    jsonMarshal tc (.response ⟨-12⟩) = .ok "\x7b\"goodCount\":-12\x7d" := rfl

theorem jsonMarshal_errorResponse_plain (tc : Toolchain) :
    jsonMarshal tc (.errorResponse ⟨"bad request", "article_id is empty"⟩)
      = .ok "\x7b\"error\":\"bad request\",\"message\":\"article_id is empty\"\x7d" := by
  cases tc <;> rfl

theorem jsonString_escapes (tc : Toolchain) :
    jsonString tc "a<b\n\"\\" = "\"a\\u003cb\\n\\\"\\\\\"" := by
  cases tc <;> rfl

theorem jsonString_control_before122 :
    jsonString Toolchain.before122 "\x08\x0c\x01" = "\"\\u0008\\u000c\\u0001\"" := rfl

theorem jsonString_control_since122 :
    jsonString Toolchain.since122 "\x08\x0c\x01" = "\"\\b\\f\\u0001\"" := rfl

/-! ## Unfolding lemmas -/

/-- Indexing a map at a key that is present yields the stored value. -/
theorem GoMap.index_of_lookup (m : GoMap) (k v : String) (h : List.lookup k m = some v) :
    m.index k = v := by
  unfold GoMap.index
  rw [h]
  rfl

/-- With a provider installed, `useCase` calls it once, logs the call, and maps the outcome. -/
theorem useCase_of_provider (json : Marshal) (articleID : String) (w : World) (p : Provider)
    (hp : w.useCaseCore = some p) :
    useCase json articleID w =
      some ((match (p articleID).2 with
             | some _ => ("", none)
             | none =>
               match json (.response ⟨(p articleID).1⟩) with
               | .error err => ("", some err)
               | .ok jb => (jb, none)),
            { w with calls := w.calls ++ [articleID] }) := by
  unfold useCase
  rw [hp]
  cases h2 : (p articleID).2 with
  | some e => simp [h2]
  | none =>
    simp only [h2]
    cases json (.response ⟨(p articleID).1⟩) <;> rfl

/-- Without a provider, `useCase` panics. -/
theorem useCase_of_nil (json : Marshal) (articleID : String) (w : World)
    (hp : w.useCaseCore = none) : useCase json articleID w = none := by
  unfold useCase
  rw [hp]

/-- An empty path parameter is answered without consulting the provider. -/
theorem controller_of_empty (json : Marshal) (request : APIGatewayProxyRequest) (w : World)
    (hid : request.PathParameters.index "article_id" = "") :
    controller json request w
      = some (responseBadRequestError json (Errorf "article_id is empty"), w) := by
  unfold controller
  simp [hid]

/-- A non-empty path parameter is handed to `useCase`, whose outcome selects the builder. -/
theorem controller_of_nonempty (json : Marshal) (request : APIGatewayProxyRequest) (w : World)
    (hid : request.PathParameters.index "article_id" ≠ "") :
    controller json request w =
      match useCase json (request.PathParameters.index "article_id") w with
      | none => none
      | some ((js, err), w1) =>
        match err with
        | some err => some (responseInternalServerError json err, w1)
        | none => some (responseSuccess js, w1) := by
  unfold controller
  simp [hid]

/-- The provider calls one request causes: none for an empty `article_id`, else one. -/
theorem controller_step (json : Marshal) (request : APIGatewayProxyRequest) (w : World)
    (p : Provider) (hp : w.useCaseCore = some p) :
    ∃ resp, controller json request w =
      some ((resp, none),
        { w with calls := w.calls ++
            (if request.PathParameters.index "article_id" = "" then []
             else [request.PathParameters.index "article_id"]) }) := by
  by_cases hid : request.PathParameters.index "article_id" = ""
  · rw [controller_of_empty _ _ _ hid]
    simp only [hid, if_true, List.append_nil]
    unfold responseBadRequestError
    dsimp only
    split <;> exact ⟨_, rfl⟩
  · rw [controller_of_nonempty _ _ _ hid, useCase_of_provider _ _ _ p hp]
    simp only [hid, if_false]
    cases (p (request.PathParameters.index "article_id")).2 with
    | some e => exact ⟨_, rfl⟩
    | none =>
      cases json (.response ⟨(p (request.PathParameters.index "article_id")).1⟩) with
      | error e =>
        dsimp only
        unfold responseInternalServerError
        dsimp only
        split <;> exact ⟨_, rfl⟩
      | ok jb => exact ⟨_, rfl⟩

/-- The runtime loop over `controller`, with a provider installed: it never panics, records
one response with a nil error per event, and calls the provider once for each event with
a non-empty `article_id`, passing that ID. -/
theorem serve_controller (json : Marshal) (p : Provider) (evs : List APIGatewayProxyRequest) :
    ∀ w : World, w.useCaseCore = some p →
    ∃ w1 rs, serve (controller json) evs w = some w1
      ∧ w1.useCaseCore = w.useCaseCore ∧ w1.stdout = w.stdout ∧ w1.started = w.started
      ∧ w1.calls = w.calls ++
          (evs.map fun ev => ev.PathParameters.index "article_id").filter (fun a => a ≠ "")
      ∧ w1.responses = w.responses ++ rs
      ∧ rs.length = evs.length
      ∧ ∀ r ∈ rs, r.2 = none := by
  induction evs with
  | nil =>
    intro w _
    exact ⟨w, [], rfl, rfl, rfl, rfl, by simp, by simp, rfl, by simp⟩
  | cons ev evs ih =>
    intro w hp
    obtain ⟨resp, hstep⟩ := controller_step json ev w p hp
    obtain ⟨w1, rs, hs, huc, hout, hst, hcalls, hresp, hlen, hnil⟩ :=
      ih { w with
            calls := w.calls ++
              (if ev.PathParameters.index "article_id" = "" then []
               else [ev.PathParameters.index "article_id"]),
            responses := w.responses ++ [(resp, none)] } hp
    refine ⟨w1, (resp, none) :: rs, ?_, huc, hout, hst, ?_, ?_, by simp [hlen], ?_⟩
    · simp only [serve, hstep]
      exact hs
    · rw [hcalls]
      by_cases hid : ev.PathParameters.index "article_id" = "" <;>
        simp [hid, List.filter_cons]
    · rw [hresp]
      simp
    · intro r hr
      rcases List.mem_cons.mp hr with rfl | hr
      · rfl
      · exact hnil r hr

/-- Service mode: `Exec` prints "production" and hands `controller` to the runtime. -/
theorem Exec_service (json : Marshal) (evs : List APIGatewayProxyRequest) (ID : String)
    (ucc : Option Provider) (w : World) :
    Exec json evs false ID ucc w =
      lambdaStart (controller json) evs (Println "production" { w with useCaseCore := ucc }) :=
  rfl

/-- Local mode without an ID: `Exec` prints the two lines of the failure report and returns. -/
theorem Exec_local_no_id (json : Marshal) (evs : List APIGatewayProxyRequest)
    (ucc : Option Provider) (w : World) :
    Exec json evs true "" ucc w =
      some (Println "ローカル実行だがID指定が無いので処理不可能"
        (Println "no exec" { w with useCaseCore := ucc })) :=
  rfl

/-- Local mode with an ID: `Exec` prints "local" and runs `localController`. -/
theorem Exec_local_id (json : Marshal) (evs : List APIGatewayProxyRequest) (ID : String)
    (ucc : Option Provider) (w : World) (hID : ID ≠ "") :
    Exec json evs true ID ucc w =
      localController json ID (Println "local" { w with useCaseCore := ucc }) := by
  unfold Exec isLocal
  simp [hID]

/-- With a provider installed, `localController` calls it once with the given ID, prints the
error text if `useCase` reports one, and then prints the string `useCase` returned. -/
theorem localController_of_provider (json : Marshal) (ID : String) (w : World) (p : Provider)
    (hp : w.useCaseCore = some p) :
    ∃ w1, localController json ID w = some w1
      ∧ w1.calls = w.calls ++ [ID]
      ∧ w1.started = w.started ∧ w1.responses = w.responses
      ∧ w1.stdout = w.stdout ++
          (match (p ID).2 with
           | some _ => [""]
           | none =>
             match json (.response ⟨(p ID).1⟩) with
             | .error err => [err.Error, ""]
             | .ok jb => [jb]) := by
  unfold localController
  rw [useCase_of_provider _ _ _ p hp]
  cases (p ID).2 with
  | some e => exact ⟨_, rfl, rfl, rfl, rfl, rfl⟩
  | none =>
    cases json (.response ⟨(p ID).1⟩) with
    | error e => exact ⟨_, rfl, rfl, rfl, rfl, by simp [Println]⟩
    | ok jb => exact ⟨_, rfl, rfl, rfl, rfl, rfl⟩

/-- A run of `localController` that returns has called the provider once, with its ID. -/
theorem localController_calls (json : Marshal) (ID : String) (w w1 : World)
    (h : localController json ID w = some w1) : w1.calls = w.calls ++ [ID] := by
  cases hp : w.useCaseCore with
  | none =>
    unfold localController at h
    rw [useCase_of_nil _ _ _ hp] at h
    simp at h
  | some p =>
    obtain ⟨w2, h2, hc, _⟩ := localController_of_provider json ID w p hp
    rw [h2] at h
    cases h
    exact hc

/-- A safe character is copied unchanged. -/
theorem jsonEscapeChar_of_safe (tc : Toolchain) (c : Char) (h : jsonSafe c = true) :
    jsonEscapeChar tc c = [c] := by
  unfold jsonSafe at h
  simp only [Bool.and_eq_true, decide_eq_true_eq, bne_iff_ne, ne_eq] at h
  obtain ⟨⟨⟨⟨⟨⟨⟨h20, hq⟩, hb⟩, hlt⟩, hgt⟩, hamp⟩, h2028⟩, h2029⟩ := h
  have hn : c ≠ '\n' := by rintro rfl; revert h20; decide
  have hr : c ≠ '\r' := by rintro rfl; revert h20; decide
  have ht : c ≠ '\t' := by rintro rfl; revert h20; decide
  unfold jsonEscapeChar
  simp [hq, hb, hlt, hgt, hamp, h2028, h2029, hn, hr, ht, Nat.not_lt.mpr h20]

/-- A text of safe characters is copied unchanged between the quotes. -/
theorem jsonString_of_safe (tc : Toolchain) (s : String) (h : ∀ c ∈ s.data, jsonSafe c = true) :
    jsonString tc s = "\"" ++ s ++ "\"" := by
  have hl : ∀ l : List Char, (∀ c ∈ l, jsonSafe c = true) →
      l.flatMap (jsonEscapeChar tc) = l := by
    intro l
    induction l with
    | nil => intro _; rfl
    | cons a l ih =>
      intro hl
      rw [List.flatMap_cons, jsonEscapeChar_of_safe tc a (hl a (List.mem_cons_self a l)),
        ih (fun c hc => hl c (List.mem_cons_of_mem a hc))]
      rfl
  unfold jsonString
  rw [hl s.data h]

/-! ## Gateway adapter: status and body -/

/-- C1: for a request whose path parameter `article_id` is a non-empty string and a
provider that succeeds on that ID with a count `c ≥ 0`, `controller` returns status 200,
the fixed headers, a nil error, and the body `{"goodCount":c}` with `c` in decimal. -/
theorem controller_success_body (tc : Toolchain)
    (request : APIGatewayProxyRequest) (w : World) (p : Provider)
    (articleID : String) (c : Int)
    (hid : List.lookup "article_id" request.PathParameters = some articleID)
    (hne : articleID ≠ "")
    (hp : w.useCaseCore = some p)
    (hc : p articleID = (c, none))
    (hnn : 0 ≤ c) :
    ∃ w1, controller (jsonMarshal tc) request w =
      some (({ StatusCode := 200, Headers := headers,
               Body := "\x7b\"goodCount\":" ++ Nat.repr c.toNat ++ "\x7d" }, none), w1) := by
  have hidx := GoMap.index_of_lookup _ _ _ hid
  refine ⟨{ w with calls := w.calls ++ [articleID] }, ?_⟩
  rw [controller_of_nonempty _ _ _ (by rw [hidx]; exact hne), hidx,
    useCase_of_provider _ _ _ p hp, hc]
  obtain ⟨n, rfl⟩ := Int.eq_ofNat_of_zero_le hnn
  rfl

/-- Witness for C1: ID "42" and count 7 give status 200 and body `{"goodCount":7}`. -/
theorem controller_success_body_witness :
    ∃ w1, controller (jsonMarshal Toolchain.since122) request42
        { useCaseCore := some sevenProvider } =
      some (({ StatusCode := 200, Headers := headers,
               Body := "\x7b\"goodCount\":7\x7d" }, none), w1) :=
  controller_success_body Toolchain.since122 request42
      { useCaseCore := some sevenProvider } sevenProvider "42" 7
    rfl (by decide) rfl rfl (by decide)

/-- C2: when the path parameter `article_id` is absent or empty, `controller` returns
status 400 with body `{"error":"bad request","message":"article_id is empty"}`, whatever
the provider is, and leaves the process state unchanged. -/
theorem controller_empty_article_id (tc : Toolchain) (request : APIGatewayProxyRequest) (w : World)
    (h : List.lookup "article_id" request.PathParameters = none
      ∨ List.lookup "article_id" request.PathParameters = some "") :
    controller (jsonMarshal tc) request w =
      some (({ StatusCode := 400, Headers := headers,
               Body := "\x7b\"error\":\"bad request\",\"message\":\"article_id is empty\"\x7d" },
             none), w) := by
  have hid : request.PathParameters.index "article_id" = "" := by
    unfold GoMap.index
    rcases h with h | h <;> rw [h] <;> rfl
  rw [controller_of_empty _ _ _ hid]
  rfl

/-- Witness for C2: a request without path parameters, and no provider installed. -/
theorem controller_empty_article_id_witness :
    controller (jsonMarshal Toolchain.since122) {} {} =
      some (({ StatusCode := 400, Headers := headers,
               Body := "\x7b\"error\":\"bad request\",\"message\":\"article_id is empty\"\x7d" },
             none), {}) :=
  controller_empty_article_id Toolchain.since122 {} {} (Or.inl rfl)

/-- Every response builder uses the package variable `headers`. -/
theorem builders_headers (json : Marshal) (rerr : GoError) (body : String) :
    (responseSuccess body).1.Headers = headers
    ∧ (responseBadRequestError json rerr).1.Headers = headers
    ∧ (responseInternalServerError json rerr).1.Headers = headers := by
  refine ⟨rfl, ?_, ?_⟩
  · unfold responseBadRequestError
    dsimp only
    split <;> rfl
  · unfold responseInternalServerError
    dsimp only
    split <;> rfl

/-- Every response builder returns a nil Go error. -/
theorem builders_nil_error (json : Marshal) (rerr : GoError) (body : String) :
    (responseSuccess body).2 = none
    ∧ (responseBadRequestError json rerr).2 = none
    ∧ (responseInternalServerError json rerr).2 = none := by
  refine ⟨rfl, ?_, ?_⟩
  · unfold responseBadRequestError
    dsimp only
    split <;> rfl
  · unfold responseInternalServerError
    dsimp only
    split <;> rfl

/-- Whenever `controller` returns, what it returns was produced by one of the three
response builders. -/
theorem controller_result_cases (json : Marshal) (request : APIGatewayProxyRequest)
    (w w1 : World) (r : HandlerResult) (h : controller json request w = some (r, w1)) :
    (∃ body, r = responseSuccess body)
    ∨ (∃ rerr, r = responseBadRequestError json rerr)
    ∨ (∃ rerr, r = responseInternalServerError json rerr) := by
  by_cases hid : request.PathParameters.index "article_id" = ""
  · rw [controller_of_empty _ _ _ hid] at h
    simp only [Option.some.injEq, Prod.mk.injEq] at h
    exact Or.inr (Or.inl ⟨_, h.1.symm⟩)
  · rw [controller_of_nonempty _ _ _ hid] at h
    cases hu : useCase json (request.PathParameters.index "article_id") w with
    | none => rw [hu] at h; simp at h
    | some res =>
      obtain ⟨⟨js, err⟩, w2⟩ := res
      rw [hu] at h
      cases err with
      | some e =>
        simp only [Option.some.injEq, Prod.mk.injEq] at h
        exact Or.inr (Or.inr ⟨_, h.1.symm⟩)
      | none =>
        simp only [Option.some.injEq, Prod.mk.injEq] at h
        exact Or.inl ⟨_, h.1.symm⟩

/-- With a provider installed, `controller` returns for every request. -/
theorem controller_returns (json : Marshal) (request : APIGatewayProxyRequest) (w : World)
    (p : Provider) (hp : w.useCaseCore = some p) :
    ∃ r w1, controller json request w = some (r, w1) := by
  by_cases hid : request.PathParameters.index "article_id" = ""
  · exact ⟨_, _, controller_of_empty _ _ _ hid⟩
  · rw [controller_of_nonempty _ _ _ hid, useCase_of_provider _ _ _ p hp]
    cases (p (request.PathParameters.index "article_id")).2 with
    | some e => exact ⟨_, _, rfl⟩
    | none =>
      cases json (.response ⟨(p (request.PathParameters.index "article_id")).1⟩) with
      | error e => exact ⟨_, _, rfl⟩
      | ok jb => exact ⟨_, _, rfl⟩

/-- C3: for every request, every provider (succeeding or failing) and every behaviour of
the encoder, `controller` returns a response whose headers are exactly the three CORS
entries; the same holds for `responseSuccess`, `responseBadRequestError` and
`responseInternalServerError` on every input, encoding-failure branches included. -/
theorem response_headers_fixed (json : Marshal) (request : APIGatewayProxyRequest) (w : World)
    (p : Provider) (hp : w.useCaseCore = some p) (rerr : GoError) (body : String) :
    (∃ r w1, controller json request w = some (r, w1) ∧
        r.1.Headers = [("Access-Control-Allow-Origin", "*"),
                       ("Access-Control-Allow-Methods", "GET"),
                       ("Access-Control-Allow-Headers", "Content-Type")])
    ∧ (responseSuccess body).1.Headers =
        [("Access-Control-Allow-Origin", "*"),
         ("Access-Control-Allow-Methods", "GET"),
         ("Access-Control-Allow-Headers", "Content-Type")]
    ∧ (responseBadRequestError json rerr).1.Headers =
        [("Access-Control-Allow-Origin", "*"),
         ("Access-Control-Allow-Methods", "GET"),
         ("Access-Control-Allow-Headers", "Content-Type")]
    ∧ (responseInternalServerError json rerr).1.Headers =
        [("Access-Control-Allow-Origin", "*"),
         ("Access-Control-Allow-Methods", "GET"),
         ("Access-Control-Allow-Headers", "Content-Type")] := by
  have hb := builders_headers json rerr body
  refine ⟨?_, hb.1, hb.2.1, hb.2.2⟩
  obtain ⟨r, w1, h⟩ := controller_returns json request w p hp
  refine ⟨r, w1, h, ?_⟩
  rcases controller_result_cases json request w w1 r h with ⟨b, rfl⟩ | ⟨e, rfl⟩ | ⟨e, rfl⟩
  · exact (builders_headers json rerr b).1
  · exact (builders_headers json e body).2.1
  · exact (builders_headers json e body).2.2

/-- Witness for C3: a failing provider, a failing encoder, ID "42". -/
theorem response_headers_fixed_witness :
    (∃ r w1, controller failingMarshal request42
          { useCaseCore := some downProvider } = some (r, w1) ∧
        r.1.Headers = [("Access-Control-Allow-Origin", "*"),
                       ("Access-Control-Allow-Methods", "GET"),
                       ("Access-Control-Allow-Headers", "Content-Type")])
    ∧ (responseSuccess "x").1.Headers =
        [("Access-Control-Allow-Origin", "*"),
         ("Access-Control-Allow-Methods", "GET"),
         ("Access-Control-Allow-Headers", "Content-Type")]
    ∧ (responseBadRequestError failingMarshal ⟨"e"⟩).1.Headers =
        [("Access-Control-Allow-Origin", "*"),
         ("Access-Control-Allow-Methods", "GET"),
         ("Access-Control-Allow-Headers", "Content-Type")]
    ∧ (responseInternalServerError failingMarshal ⟨"e"⟩).1.Headers =
        [("Access-Control-Allow-Origin", "*"),
         ("Access-Control-Allow-Methods", "GET"),
         ("Access-Control-Allow-Headers", "Content-Type")] :=
  response_headers_fixed failingMarshal request42
    { useCaseCore := some downProvider } downProvider rfl
    ⟨"e"⟩ "x"

/-- C4: for a request with a non-empty `article_id` and a provider that returns an error
for that ID (whatever count comes with it), `useCase` returns the empty string with no
error, and `controller` returns status 200 with an empty body and a nil error. -/
theorem provider_error_swallowed (json : Marshal) (request : APIGatewayProxyRequest)
    (w : World) (p : Provider) (articleID : String) (c : Int) (e : GoError)
    (hid : List.lookup "article_id" request.PathParameters = some articleID)
    (hne : articleID ≠ "")
    (hp : w.useCaseCore = some p)
    (hc : p articleID = (c, some e)) :
    ∃ w1,
      useCase json articleID w = some (("", none), w1)
      ∧ controller json request w =
          some (({ StatusCode := 200, Headers := headers, Body := "" }, none), w1) := by
  have hidx := GoMap.index_of_lookup _ _ _ hid
  refine ⟨{ w with calls := w.calls ++ [articleID] }, ?_, ?_⟩
  · rw [useCase_of_provider _ _ _ p hp, hc]
  · rw [controller_of_nonempty _ _ _ (by rw [hidx]; exact hne), hidx,
      useCase_of_provider _ _ _ p hp, hc]
    rfl

/-- Witness for C4: ID "42" and a provider that fails with count 3. -/
theorem provider_error_swallowed_witness :
    ∃ w1,
      useCase (jsonMarshal Toolchain.since122) "42"
          { useCaseCore := some downProvider } = some (("", none), w1)
      ∧ controller (jsonMarshal Toolchain.since122) request42 { useCaseCore := some downProvider } =
          some (({ StatusCode := 200, Headers := headers, Body := "" }, none), w1) :=
  provider_error_swallowed (jsonMarshal Toolchain.since122) request42
      { useCaseCore := some downProvider }
    downProvider "42" 3 ⟨"store unreachable"⟩ rfl (by decide) rfl rfl

/-! ## Mode dispatcher -/

/-- C5: mode resolution by `isLocal`.  With the flag false the result is `(false, nil)`
whatever the ID; with the flag true and an empty ID the result is `false` with an error;
with the flag true and a non-empty ID the result is `(true, nil)`.  So `isLocal` fails
exactly when the flag is true and the ID is empty, and otherwise returns the flag. -/
theorem isLocal_resolution (t : Bool) (ID : String) (w : World) :
    (t = false → (isLocal t ID w).1 = (false, none))
    ∧ (t = true → ID = "" →
        (isLocal t ID w).1 = (false, some (Errorf "ローカル実行だがID指定が無いので処理不可能")))
    ∧ (t = true → ID ≠ "" → (isLocal t ID w).1 = (true, none))
    ∧ ((isLocal t ID w).1.2 ≠ none ↔ (t = true ∧ ID = ""))
    ∧ ((isLocal t ID w).1.2 = none → (isLocal t ID w).1.1 = t) := by
  unfold isLocal
  cases t <;> by_cases h : ID = "" <;> simp [h]

/-- Witness for C5: the three rows of the mode table at concrete flag values. -/
theorem isLocal_resolution_witness :
    (isLocal false "42" {}).1 = (false, none)
    ∧ (isLocal true "" {}).1 = (false, some (Errorf "ローカル実行だがID指定が無いので処理不可能"))
    ∧ (isLocal true "42" {}).1 = (true, none) :=
  ⟨(isLocal_resolution false "42" {}).1 rfl,
   (isLocal_resolution true "" {}).2.1 rfl rfl,
   (isLocal_resolution true "42" {}).2.2.1 rfl (by decide)⟩

/-! ## Provider calls and process output -/

/-- C6: with a provider installed, `controller` makes no provider call for a request whose
`article_id` is absent or empty, and exactly one call, with the ID unchanged, for a request
whose `article_id` is non-empty.  Every call that a run of `Exec` adds to the log passes a
non-empty ID, in local mode and in service mode alike; on the local path with a non-empty
ID the log grows by exactly that ID. -/
theorem provider_calls_nonempty (json : Marshal) (request : APIGatewayProxyRequest)
    (w : World) (p : Provider) (hp : w.useCaseCore = some p)
    (evs : List APIGatewayProxyRequest) (t : Bool) (ID : String) (w0 : World) :
    (∃ r w1, controller json request w = some (r, w1)
        ∧ (request.PathParameters.index "article_id" = "" → w1.calls = w.calls)
        ∧ (request.PathParameters.index "article_id" ≠ "" →
            w1.calls = w.calls ++ [request.PathParameters.index "article_id"]))
    ∧ (∃ w1 new, Exec json evs t ID (some p) w0 = some w1
        ∧ w1.calls = w0.calls ++ new ∧ (∀ a ∈ new, a ≠ "")
        ∧ (t = true → ID ≠ "" → new = [ID])
        ∧ (t = true → ID = "" → new = [])) := by
  constructor
  · obtain ⟨resp, h⟩ := controller_step json request w p hp
    refine ⟨_, _, h, ?_, ?_⟩
    · intro hid
      simp [hid]
    · intro hid
      simp [hid]
  · cases t with
    | false =>
      rw [Exec_service]
      obtain ⟨w1, rs, hs, _, _, _, hcalls, _⟩ :=
        serve_controller json p evs
          { Println "production" { w0 with useCaseCore := some p } with started := true } rfl
      refine ⟨w1, _, hs, hcalls, ?_, by simp, by simp⟩
      intro a ha
      simpa using (List.mem_filter.mp ha).2
    | true =>
      by_cases hID : ID = ""
      · subst hID
        rw [Exec_local_no_id]
        exact ⟨_, [], rfl, by simp [Println], by simp, by simp, by simp⟩
      · rw [Exec_local_id _ _ _ _ _ hID]
        obtain ⟨w1, h1, hc, _⟩ :=
          localController_of_provider json ID
            (Println "local" { w0 with useCaseCore := some p }) p rfl
        refine ⟨w1, [ID], h1, hc, ?_, by simp, by simp [hID]⟩
        intro a ha
        rw [List.mem_singleton.mp ha]
        exact hID

/-- Witness for C6: one request with ID "42", and a local run with ID "42". -/
theorem provider_calls_nonempty_witness :
    (∃ r w1, controller (jsonMarshal Toolchain.since122) request42
        { useCaseCore := some sevenProvider } = some (r, w1)
        ∧ w1.calls = ["42"])
    ∧ (∃ w1, Exec (jsonMarshal Toolchain.since122) [] true "42" (some sevenProvider) {} = some w1
        ∧ w1.calls = ["42"]) := by
  have h := provider_calls_nonempty (jsonMarshal Toolchain.since122) request42
      { useCaseCore := some sevenProvider }
    sevenProvider rfl [] true "42" {}
  obtain ⟨⟨r, w1, h1, _, h3⟩, ⟨w2, new, h4, h5, _, h7, _⟩⟩ := h
  refine ⟨⟨r, w1, h1, ?_⟩, ⟨w2, h4, ?_⟩⟩
  · simpa using h3 (by decide)
  · rw [h5, h7 rfl (by decide)]
    rfl

/-- C7: run with the local flag true and an empty ID, `Exec` returns after printing the
failure report ("no exec", then the error text) and nothing else; it makes no provider
call, does not register the gateway handler, and serves no event.  It cannot have run
`localController`, every returning run of which leaves a call in the log. -/
theorem exec_local_flag_without_id (json : Marshal) (evs : List APIGatewayProxyRequest)
    (ucc : Option Provider) (w : World) :
    (∃ w1, Exec json evs true "" ucc w = some w1
        ∧ w1.stdout = w.stdout ++ ["no exec", "ローカル実行だがID指定が無いので処理不可能"]
        ∧ w1.calls = w.calls
        ∧ w1.started = w.started
        ∧ w1.responses = w.responses)
    ∧ (∀ (ID : String) (wa wb : World),
        localController json ID wa = some wb → wb.calls = wa.calls ++ [ID]) := by
  refine ⟨⟨_, Exec_local_no_id json evs ucc w, ?_, rfl, rfl, rfl⟩, ?_⟩
  · simp [Println]
  · intro ID wa wb h
    exact localController_calls json ID wa wb h

/-- Witness for C7: the failing start-up with a provider and a pending event at hand. -/
theorem exec_local_flag_without_id_witness :
    ∃ w1, Exec (jsonMarshal Toolchain.since122) [request42] true "" (some sevenProvider) {}
        = some w1
      ∧ w1.stdout = ["no exec", "ローカル実行だがID指定が無いので処理不可能"]
      ∧ w1.calls = []
      ∧ w1.started = false
      ∧ w1.responses = [] :=
  (exec_local_flag_without_id (jsonMarshal Toolchain.since122)
      [request42] (some sevenProvider) {}).1

/-- C8: run with the local flag true, a non-empty ID and a provider that succeeds on it
with count `c`, `Exec` prints "local" and then the line `{"goodCount":c}`, calls the
provider exactly once with that ID, and does not register the gateway handler. -/
theorem exec_local_success (tc : Toolchain)
    (evs : List APIGatewayProxyRequest) (ID : String) (p : Provider)
    (c : Int) (w : World) (hID : ID ≠ "") (hc : p ID = (c, none)) :
    ∃ w1, Exec (jsonMarshal tc) evs true ID (some p) w = some w1
      ∧ w1.stdout = w.stdout ++ ["local", "\x7b\"goodCount\":" ++ formatInt c ++ "\x7d"]
      ∧ w1.calls = w.calls ++ [ID]
      ∧ w1.started = w.started
      ∧ w1.responses = w.responses := by
  rw [Exec_local_id _ _ _ _ _ hID]
  obtain ⟨w1, h1, hcalls, hst, hresp, hout⟩ :=
    localController_of_provider (jsonMarshal tc) ID
      (Println "local" { w with useCaseCore := some p }) p rfl
  refine ⟨w1, h1, ?_, hcalls, hst, hresp⟩
  rw [hout, hc]
  simp [Println, jsonMarshal]

/-- Witness for C8: ID "42" and count 7 print `{"goodCount":7}` after "local". -/
theorem exec_local_success_witness :
    ∃ w1, Exec (jsonMarshal Toolchain.since122) [] true "42" (some sevenProvider) {} = some w1
      ∧ w1.stdout = ["local", "\x7b\"goodCount\":7\x7d"]
      ∧ w1.calls = ["42"]
      ∧ w1.started = false
      ∧ w1.responses = [] :=
  exec_local_success Toolchain.since122 [] "42" sevenProvider 7 {} (by decide) rfl

/-! ## Error responses -/

/-- Every character is encoded by at least one character. -/
theorem jsonEscapeChar_length_pos (tc : Toolchain) (c : Char) :
    1 ≤ (jsonEscapeChar tc c).length := by
  unfold jsonEscapeChar
  repeat' split
  all_goals simp

/-- A character that is not safe is encoded by an escape of at least two characters. -/
theorem jsonEscapeChar_length_unsafe (tc : Toolchain) (c : Char) (h : jsonSafe c = false) :
    2 ≤ (jsonEscapeChar tc c).length := by
  unfold jsonEscapeChar
  repeat' split
  all_goals first
    | (simp; done)
    | (exfalso
       rename_i h1 h2 h3 h4 h5 h6
       have hs : jsonSafe c = true := by
         unfold jsonSafe
         simp only [Bool.and_eq_true, decide_eq_true_eq, bne_iff_ne, ne_eq]
         push_neg at h1 h5 h6
         exact ⟨⟨⟨⟨⟨⟨⟨by omega, h1.1⟩, h1.2⟩, h5.2.1⟩, h5.2.2.1⟩, h5.2.2.2⟩,
           h6.1⟩, h6.2⟩
       rw [hs] at h
       exact Bool.noConfusion h)

/-- Encoding never shortens a text. -/
theorem length_le_flatMap_jsonEscapeChar (tc : Toolchain) (l : List Char) :
    l.length ≤ (l.flatMap (jsonEscapeChar tc)).length := by
  induction l with
  | nil => simp
  | cons a l ih =>
    rw [List.flatMap_cons, List.length_append, List.length_cons]
    have := jsonEscapeChar_length_pos tc a
    omega

/-- A text that the encoder copies unchanged consists of safe characters. -/
theorem safe_of_flatMap_jsonEscapeChar_eq (tc : Toolchain) (l : List Char)
    (h : l.flatMap (jsonEscapeChar tc) = l) : ∀ c ∈ l, jsonSafe c = true := by
  induction l with
  | nil => intro c hc; cases hc
  | cons a l ih =>
    have hlen := congrArg List.length h
    rw [List.flatMap_cons, List.length_append, List.length_cons] at hlen
    have hle := length_le_flatMap_jsonEscapeChar tc l
    have ha : jsonSafe a = true := by
      cases hs : jsonSafe a with
      | true => rfl
      | false =>
        have := jsonEscapeChar_length_unsafe tc a hs
        omega
    rw [List.flatMap_cons, jsonEscapeChar_of_safe tc a ha] at h
    have ht : l.flatMap (jsonEscapeChar tc) = l := by
      simpa using h
    intro c hc
    rcases List.mem_cons.mp hc with rfl | hc
    · exact ha
    · exact ih ht c hc

/-- The string literal is the quoted text itself exactly when every character is safe. -/
theorem jsonString_eq_quoted_iff (tc : Toolchain) (s : String) :
    jsonString tc s = "\"" ++ s ++ "\"" ↔ ∀ c ∈ s.data, jsonSafe c = true := by
  constructor
  · intro h
    unfold jsonString at h
    have hd := congrArg String.data h
    simp only [String.data_append] at hd
    exact safe_of_flatMap_jsonEscapeChar_eq tc s.data
      (List.append_cancel_left (List.append_cancel_right hd))
  · exact jsonString_of_safe tc s

/-- C9: for an error `e` whose `ErrorResponse` encodes successfully to `s`,
`responseInternalServerError e` returns status 500 with body `s`, the encoding of the
struct with the fields `error` = "internal server error" and `message` = the text of `e`,
in that order.  Under `encoding/json`, for either release family of the toolchain, a text of
which the encoder escapes no character gives literally the body
`{"error":"internal server error","message":"<text of e>"}`, and only such a text does.
`controller` returns exactly the response with body `s` whenever `useCase` reports the
error `e`.  Texts are valid UTF-8. -/
theorem internal_server_error_response (json : Marshal) (tc : Toolchain) (e : GoError)
    (s : String)
    (henc : json (.errorResponse ⟨"internal server error", e.Error⟩) = .ok s) :
    responseInternalServerError json e =
        ({ StatusCode := 500, Headers := headers, Body := s }, none)
    ∧ ((∀ c ∈ e.Error.data, jsonSafe c = true) →
        responseInternalServerError (jsonMarshal tc) e =
          ({ StatusCode := 500, Headers := headers,
             Body := "\x7b\"error\":\"internal server error\",\"message\":\""
                      ++ e.Error ++ "\"\x7d" }, none))
    ∧ (responseInternalServerError (jsonMarshal tc) e =
          ({ StatusCode := 500, Headers := headers,
             Body := "\x7b\"error\":\"internal server error\",\"message\":\""
                      ++ e.Error ++ "\"\x7d" }, none) →
        ∀ c ∈ e.Error.data, jsonSafe c = true)
    ∧ (∀ (request : APIGatewayProxyRequest) (w w1 : World) (js : String),
        request.PathParameters.index "article_id" ≠ "" →
        useCase json (request.PathParameters.index "article_id") w = some ((js, some e), w1) →
        controller json request w =
          some (({ StatusCode := 500, Headers := headers, Body := s }, none), w1)) := by
  have h1 : responseInternalServerError json e =
      ({ StatusCode := 500, Headers := headers, Body := s }, none) := by
    unfold responseInternalServerError
    simp only [henc]
  have hk : jsonString tc "internal server error" = "\"internal server error\"" := by
    cases tc <;> rfl
  have hbody : responseInternalServerError (jsonMarshal tc) e =
      ({ StatusCode := 500, Headers := headers,
         Body := "\x7b\"error\":\"internal server error\",\"message\":"
                  ++ jsonString tc e.Error ++ "\x7d" }, none) := by
    unfold responseInternalServerError jsonMarshal
    simp only [hk]
    rfl
  refine ⟨h1, ?_, ?_, ?_⟩
  · intro hsafe
    rw [hbody, (jsonString_eq_quoted_iff tc e.Error).mpr hsafe]
    simp only [String.append_assoc]
    rfl
  · intro h
    rw [hbody] at h
    have hb : ("\x7b\"error\":\"internal server error\",\"message\":"
                ++ jsonString tc e.Error ++ "\x7d").data
        = ("\x7b\"error\":\"internal server error\",\"message\":\""
                ++ e.Error ++ "\"\x7d").data :=
      congrArg (fun r : HandlerResult => r.1.Body.data) h
    have hpre : ("\x7b\"error\":\"internal server error\",\"message\":\"").data
        = ("\x7b\"error\":\"internal server error\",\"message\":").data ++ ("\"").data := rfl
    have hsuf : ("\"\x7d").data = ("\"").data ++ ("\x7d").data := rfl
    rw [String.data_append, String.data_append, String.data_append, String.data_append,
      hpre, hsuf] at hb
    have hb2 : ("\x7b\"error\":\"internal server error\",\"message\":").data
          ++ (jsonString tc e.Error).data ++ ("\x7d").data
        = ("\x7b\"error\":\"internal server error\",\"message\":").data
          ++ (("\"").data ++ e.Error.data ++ ("\"").data) ++ ("\x7d").data := by
      rw [hb]
      simp only [List.append_assoc]
    have hb3 := List.append_cancel_left (List.append_cancel_right hb2)
    apply (jsonString_eq_quoted_iff tc e.Error).mp
    apply String.ext
    rw [String.data_append, String.data_append]
    exact hb3
  · intro request w w1 js hid hu
    rw [controller_of_nonempty _ _ _ hid, hu]
    simp only [h1]

/-- Witness for C9: the encoder fails on the `Response`, `useCase` reports that error, and
`controller` answers 500 with the error envelope around its text. -/
theorem internal_server_error_response_witness :
    responseInternalServerError (responseFailingMarshal Toolchain.since122)
        ⟨"json: unsupported value"⟩ =
        ({ StatusCode := 500, Headers := headers,
           Body := "\x7b\"error\":\"internal server error\",\"message\":\"json: unsupported value\"\x7d" },
         none)
    ∧ responseInternalServerError (jsonMarshal Toolchain.before122)
        ⟨"json: unsupported value"⟩ =
        ({ StatusCode := 500, Headers := headers,
           Body := "\x7b\"error\":\"internal server error\",\"message\":\""
                    ++ "json: unsupported value" ++ "\"\x7d" }, none)
    ∧ controller (responseFailingMarshal Toolchain.since122) request42
          { useCaseCore := some sevenProvider } =
        some (({ StatusCode := 500, Headers := headers,
                 Body := "\x7b\"error\":\"internal server error\",\"message\":\"json: unsupported value\"\x7d" },
               none), { useCaseCore := some sevenProvider, calls := ["42"] }) :=
  have h := internal_server_error_response (responseFailingMarshal Toolchain.since122)
    Toolchain.before122 ⟨"json: unsupported value"⟩
    "\x7b\"error\":\"internal server error\",\"message\":\"json: unsupported value\"\x7d" rfl
  ⟨h.1, h.2.1 (by decide),
    h.2.2.2 request42 { useCaseCore := some sevenProvider }
      { useCaseCore := some sevenProvider, calls := ["42"] } "" (by decide) rfl⟩

/-- C10: if encoding the `ErrorResponse` fails with error `err`, `responseBadRequestError`
and `responseInternalServerError` each return status 500 with the text of `err` as the
body.  On every path the three builders return a nil Go error, and with a provider
installed `controller` returns one response with a nil Go error for every request; the
runtime loop over `controller` therefore records exactly one response, with a nil error,
per event. -/
theorem error_encoding_fallback (json : Marshal) (rerr err : GoError) (body : String)
    (request : APIGatewayProxyRequest) (evs : List APIGatewayProxyRequest)
    (w : World) (p : Provider) (hp : w.useCaseCore = some p) :
    (json (.errorResponse ⟨"bad request", rerr.Error⟩) = .error err →
        responseBadRequestError json rerr =
          ({ StatusCode := 500, Headers := headers, Body := err.Error }, none))
    ∧ (json (.errorResponse ⟨"internal server error", rerr.Error⟩) = .error err →
        responseInternalServerError json rerr =
          ({ StatusCode := 500, Headers := headers, Body := err.Error }, none))
    ∧ (responseSuccess body).2 = none
    ∧ (responseBadRequestError json rerr).2 = none
    ∧ (responseInternalServerError json rerr).2 = none
    ∧ (∃ resp w1, controller json request w = some ((resp, none), w1))
    ∧ (∃ w1 rs, lambdaStart (controller json) evs w = some w1
        ∧ w1.responses = w.responses ++ rs
        ∧ rs.length = evs.length
        ∧ ∀ r ∈ rs, r.2 = none) := by
  have hn := builders_nil_error json rerr body
  refine ⟨?_, ?_, hn.1, hn.2.1, hn.2.2, ?_, ?_⟩
  · intro h
    unfold responseBadRequestError
    simp only [h]
  · intro h
    unfold responseInternalServerError
    simp only [h]
  · obtain ⟨resp, h⟩ := controller_step json request w p hp
    exact ⟨resp, _, h⟩
  · obtain ⟨w1, rs, hs, _, _, _, _, hresp, hlen, hnil⟩ :=
      serve_controller json p evs { w with started := true } hp
    exact ⟨w1, rs, hs, hresp, hlen, hnil⟩

/-- Witness for C10: an encoder that always fails, under both error builders and under
`controller` for a request without `article_id`. -/
theorem error_encoding_fallback_witness :
    responseBadRequestError failingMarshal ⟨"article_id is empty"⟩ =
        ({ StatusCode := 500, Headers := headers, Body := "json: unsupported value" }, none)
    ∧ responseInternalServerError failingMarshal ⟨"boom"⟩ =
        ({ StatusCode := 500, Headers := headers, Body := "json: unsupported value" }, none)
    ∧ (∃ resp w1, controller failingMarshal {} { useCaseCore := some sevenProvider } =
        some ((resp, none), w1)) :=
  ⟨(error_encoding_fallback failingMarshal ⟨"article_id is empty"⟩ ⟨"json: unsupported value"⟩
      "" {} [] { useCaseCore := some sevenProvider } sevenProvider rfl).1 rfl,
   (error_encoding_fallback failingMarshal ⟨"boom"⟩ ⟨"json: unsupported value"⟩
      "" {} [] { useCaseCore := some sevenProvider } sevenProvider rfl).2.1 rfl,
   (error_encoding_fallback failingMarshal ⟨"boom"⟩ ⟨"json: unsupported value"⟩
      "" {} [] { useCaseCore := some sevenProvider } sevenProvider rfl).2.2.2.2.2.1⟩

/-! ## Reachability of the error branch -/

/-- The index expression yields `""` exactly when the key is absent or bound to `""`. -/
theorem GoMap.index_eq_empty_iff (m : GoMap) (k : String) :
    m.index k = "" ↔ (List.lookup k m = none ∨ List.lookup k m = some "") := by
  unfold GoMap.index
  cases List.lookup k m with
  | none => simp
  | some v => simp

/-- Under `encoding/json`, `controller` answers 400 for an empty `article_id` and 200
otherwise, with a nil error. -/
theorem controller_status_jsonMarshal (tc : Toolchain)
    (request : APIGatewayProxyRequest) (w : World)
    (p : Provider) (hp : w.useCaseCore = some p) :
    ∃ resp w1, controller (jsonMarshal tc) request w = some ((resp, none), w1)
      ∧ resp.StatusCode =
          (if request.PathParameters.index "article_id" = "" then 400 else 200) := by
  by_cases hid : request.PathParameters.index "article_id" = ""
  · rw [controller_of_empty _ _ _ hid]
    exact ⟨_, _, rfl, by simp [hid]⟩
  · rw [controller_of_nonempty _ _ _ hid, useCase_of_provider _ _ _ p hp]
    cases (p (request.PathParameters.index "article_id")).2 with
    | some e => exact ⟨_, _, rfl, by simp [hid, responseSuccess]⟩
    | none => exact ⟨_, _, rfl, by simp [hid, responseSuccess]⟩

/-- C12: under `encoding/json`, which cannot fail on a `Response`, `useCase` never returns
an error; so for every request and provider the status `controller` returns is 400 exactly
when `article_id` is absent or empty and 200 otherwise, never 500, and the response is never
one built by `responseInternalServerError`.  For an arbitrary encoder, `useCase` returns an
error only when that encoder fails on a `Response`. -/
theorem internal_error_branch_unreachable (tc : Toolchain)
    (request : APIGatewayProxyRequest) (w : World)
    (p : Provider) (articleID : String) (hp : w.useCaseCore = some p) :
    (∃ js w1, useCase (jsonMarshal tc) articleID w = some ((js, none), w1))
    ∧ (∃ resp w1, controller (jsonMarshal tc) request w = some ((resp, none), w1)
        ∧ (resp.StatusCode = 400 ↔
            (List.lookup "article_id" request.PathParameters = none
              ∨ List.lookup "article_id" request.PathParameters = some ""))
        ∧ (resp.StatusCode = 200 ↔
            ¬ (List.lookup "article_id" request.PathParameters = none
              ∨ List.lookup "article_id" request.PathParameters = some ""))
        ∧ resp.StatusCode ≠ 500
        ∧ ∀ e, (resp, none) ≠ responseInternalServerError (jsonMarshal tc) e)
    ∧ (∀ (json : Marshal) (js : String) (e : GoError) (w1 : World),
        useCase json articleID w = some ((js, some e), w1) →
        ∃ c, json (.response ⟨c⟩) = .error e) := by
  refine ⟨?_, ?_, ?_⟩
  · rw [useCase_of_provider _ _ _ p hp]
    cases (p articleID).2 with
    | some e => exact ⟨_, _, rfl⟩
    | none => exact ⟨_, _, rfl⟩
  · obtain ⟨resp, w1, h, hs⟩ := controller_status_jsonMarshal tc request w p hp
    have hiff := GoMap.index_eq_empty_iff request.PathParameters "article_id"
    refine ⟨resp, w1, h, ?_, ?_, ?_, ?_⟩
    · rw [hs, ← hiff]
      by_cases hid : request.PathParameters.index "article_id" = "" <;> simp [hid]
    · rw [hs, ← hiff]
      by_cases hid : request.PathParameters.index "article_id" = "" <;> simp [hid]
    · rw [hs]
      by_cases hid : request.PathParameters.index "article_id" = "" <;> simp [hid]
    · intro e he
      have h500 : (responseInternalServerError (jsonMarshal tc) e).1.StatusCode = 500 := rfl
      rw [← he] at h500
      rw [hs] at h500
      by_cases hid : request.PathParameters.index "article_id" = "" <;> simp [hid] at h500
  · intro json js e w1 h
    rw [useCase_of_provider _ _ _ p hp] at h
    refine ⟨(p articleID).1, ?_⟩
    cases h2 : (p articleID).2 with
    | some e2 => simp [h2] at h
    | none =>
      cases h3 : json (.response ⟨(p articleID).1⟩) with
      | error err =>
        simp [h2, h3] at h
        rw [h.1.2]
      | ok jb => simp [h2, h3] at h

/-- Witness for C12: ID "42" with a succeeding provider gives 200. -/
theorem internal_error_branch_unreachable_witness :
    ∃ resp w1, controller (jsonMarshal Toolchain.since122) request42
        { useCaseCore := some sevenProvider } =
        some ((resp, none), w1)
      ∧ resp.StatusCode = 200 := by
  obtain ⟨resp, w1, h, _, h200, _⟩ :=
    (internal_error_branch_unreachable Toolchain.since122 request42
        { useCaseCore := some sevenProvider }
      sevenProvider "42" rfl).2.1
  exact ⟨resp, w1, h, h200.mpr (by decide)⟩

/-! ## The success body as a function of the count -/

/-- The character of a decimal digit reads back as that digit. -/
theorem digitChar_value (k : Nat) (h : k < 10) : (Nat.digitChar k).toNat - 48 = k := by
  interval_cases k <;> rfl

/-- No decimal digit is the minus sign. -/
theorem digitChar_ne_minus (k : Nat) (h : k < 10) : Nat.digitChar k ≠ '-' := by
  interval_cases k <;> decide

/-- Reading the digits produced for `n` in front of `ds` amounts to reading `ds` from `n`. -/
theorem foldl_toDigitsCore (fuel : Nat) :
    ∀ (n : Nat) (ds : List Char), n < fuel →
      List.foldl (fun acc c => 10 * acc + (c.toNat - 48)) 0 (Nat.toDigitsCore 10 fuel n ds)
        = List.foldl (fun acc c => 10 * acc + (c.toNat - 48)) n ds := by
  induction fuel with
  | zero => intro n ds h; omega
  | succ fuel ih =>
    intro n ds h
    unfold Nat.toDigitsCore
    by_cases h0 : n / 10 = 0
    · simp only [h0, if_true, List.foldl_cons]
      rw [digitChar_value _ (Nat.mod_lt _ (by decide))]
      congr 1
      omega
    · simp only [h0, if_false]
      rw [ih (n / 10) _ (by omega), List.foldl_cons,
        digitChar_value _ (Nat.mod_lt _ (by decide))]
      congr 1
      omega

/-- Producing digits adds no minus sign. -/
theorem minus_not_mem_toDigitsCore (fuel : Nat) :
    ∀ (n : Nat) (ds : List Char), '-' ∉ ds → '-' ∉ Nat.toDigitsCore 10 fuel n ds := by
  induction fuel with
  | zero => intro n ds h; exact h
  | succ fuel ih =>
    intro n ds h
    have hd : '-' ∉ Nat.digitChar (n % 10) :: ds := by
      intro hm
      rcases List.mem_cons.mp hm with hm | hm
      · exact digitChar_ne_minus _ (Nat.mod_lt _ (by decide)) hm.symm
      · exact h hm
    unfold Nat.toDigitsCore
    by_cases h0 : n / 10 = 0
    · simp only [h0, if_true]
      exact hd
    · simp only [h0, if_false]
      exact ih _ _ hd

/-- The decimal text of `n` denotes `n`. -/
theorem decimalValue_repr (n : Nat) : decimalValue (Nat.repr n).data = n := by
  unfold decimalValue Nat.repr Nat.toDigits
  exact foldl_toDigitsCore (n + 1) n [] (Nat.lt_succ_self n)

/-- Different numbers have different decimal texts. -/
theorem repr_injective (a b : Nat) (h : Nat.repr a = Nat.repr b) : a = b := by
  rw [← decimalValue_repr a, ← decimalValue_repr b, h]

/-- The decimal text of a natural number has no minus sign. -/
theorem minus_not_mem_repr (n : Nat) : '-' ∉ (Nat.repr n).data := by
  unfold Nat.repr Nat.toDigits
  exact minus_not_mem_toDigitsCore (n + 1) n [] (by simp)

/-- Different integers have different signed decimal texts. -/
theorem formatInt_injective (a b : Int) (h : formatInt a = formatInt b) : a = b := by
  cases a with
  | ofNat m =>
    cases b with
    | ofNat k =>
      simp only [formatInt] at h
      rw [repr_injective m k h]
    | negSucc k =>
      exfalso
      simp only [formatInt] at h
      apply minus_not_mem_repr m
      rw [h]
      simp [String.data_append]
  | negSucc m =>
    cases b with
    | ofNat k =>
      exfalso
      simp only [formatInt] at h
      apply minus_not_mem_repr k
      rw [← h]
      simp [String.data_append]
    | negSucc k =>
      simp only [formatInt] at h
      have h2 : (Nat.repr (m + 1)).data = (Nat.repr (k + 1)).data := by
        have := congrArg String.data h
        simpa [String.data_append] using this
      have h3 := repr_injective (m + 1) (k + 1) (String.ext h2)
      have : m = k := by omega
      rw [this]

/-- Different counts have different success bodies. -/
theorem successBody_injective (a b : Int)
    (h : "\x7b\"goodCount\":" ++ formatInt a ++ "\x7d"
       = "\x7b\"goodCount\":" ++ formatInt b ++ "\x7d") : a = b := by
  have hd := congrArg String.data h
  simp only [String.data_append] at hd
  have h1 := List.append_cancel_left (List.append_cancel_right hd)
  exact formatInt_injective a b (String.ext h1)

/-- A success body is never the empty string. -/
theorem successBody_ne_empty (a : Int) :
    "\x7b\"goodCount\":" ++ formatInt a ++ "\x7d" ≠ "" := by
  intro h
  have hd := congrArg String.length h
  simp only [String.length_append] at hd
  have h1 : "\x7d".length = 1 := rfl
  have h0 : "".length = 0 := rfl
  omega

/-- C13: the success body is an injective function of the count over all integers.  For
every count `c` the provider returns, negative ones included, `controller` answers 200 with
body `{"goodCount":c}` in signed decimal (the digits of `|c|`, after a minus sign when
`c < 0`); two different counts never give the same body; the body is never empty, hence
never equal to the empty body returned when a provider error is swallowed. -/
theorem success_body_injective (tc : Toolchain) (request : APIGatewayProxyRequest) (wa wb : World)
    (pa pb : Provider) (articleID : String) (ca cb : Int)
    (hid : List.lookup "article_id" request.PathParameters = some articleID)
    (hne : articleID ≠ "")
    (ha : wa.useCaseCore = some pa) (hb : wb.useCaseCore = some pb)
    (hca : pa articleID = (ca, none)) (hcb : pb articleID = (cb, none)) :
    ∃ ra rb wa1 wb1,
      controller (jsonMarshal tc) request wa = some ((ra, none), wa1)
      ∧ controller (jsonMarshal tc) request wb = some ((rb, none), wb1)
      ∧ ra.StatusCode = 200
      ∧ ra.Body = "\x7b\"goodCount\":" ++ formatInt ca ++ "\x7d"
      ∧ (0 ≤ ca → formatInt ca = Nat.repr ca.natAbs)
      ∧ (ca < 0 → formatInt ca = "-" ++ Nat.repr ca.natAbs)
      ∧ decimalValue (Nat.repr ca.natAbs).data = ca.natAbs
      ∧ (ra.Body = rb.Body → ca = cb)
      ∧ ra.Body ≠ ""
      ∧ (∀ (pc : Provider) (wc : World) (cc : Int) (e : GoError),
          wc.useCaseCore = some pc → pc articleID = (cc, some e) →
          ∃ rc wc1, controller (jsonMarshal tc) request wc = some ((rc, none), wc1)
            ∧ rc.Body = "" ∧ rc.Body ≠ ra.Body) := by
  have hidx := GoMap.index_of_lookup _ _ _ hid
  have hidne : request.PathParameters.index "article_id" ≠ "" := by rw [hidx]; exact hne
  refine ⟨{ StatusCode := 200, Headers := headers,
            Body := "\x7b\"goodCount\":" ++ formatInt ca ++ "\x7d" },
          { StatusCode := 200, Headers := headers,
            Body := "\x7b\"goodCount\":" ++ formatInt cb ++ "\x7d" },
          { wa with calls := wa.calls ++ [articleID] },
          { wb with calls := wb.calls ++ [articleID] }, ?_, ?_, rfl, rfl, ?_, ?_,
          decimalValue_repr _, ?_, ?_, ?_⟩
  · rw [controller_of_nonempty _ _ _ hidne, hidx, useCase_of_provider _ _ _ pa ha, hca]
    rfl
  · rw [controller_of_nonempty _ _ _ hidne, hidx, useCase_of_provider _ _ _ pb hb, hcb]
    rfl
  · intro h0
    obtain ⟨n, rfl⟩ := Int.eq_ofNat_of_zero_le h0
    rfl
  · intro hneg
    obtain ⟨n, rfl⟩ := Int.eq_negSucc_of_lt_zero hneg
    rfl
  · intro h
    exact successBody_injective ca cb h
  · exact successBody_ne_empty ca
  · intro pc wc cc e hc hcc
    refine ⟨{ StatusCode := 200, Headers := headers, Body := "" },
      { wc with calls := wc.calls ++ [articleID] }, ?_, rfl, ?_⟩
    · rw [controller_of_nonempty _ _ _ hidne, hidx, useCase_of_provider _ _ _ pc hc, hcc]
      rfl
    · intro h
      exact successBody_ne_empty ca h.symm

/-- Witness for C13: ID "42", the count -12 against the count 7. -/
theorem success_body_injective_witness :
    ∃ ra rb wa1 wb1,
      controller (jsonMarshal Toolchain.since122) request42
          { useCaseCore := some negativeProvider } =
        some ((ra, none), wa1)
      ∧ controller (jsonMarshal Toolchain.since122) request42
          { useCaseCore := some sevenProvider } =
        some ((rb, none), wb1)
      ∧ ra.StatusCode = 200
      ∧ ra.Body = "\x7b\"goodCount\":-12\x7d"
      ∧ ra.Body ≠ rb.Body
      ∧ ra.Body ≠ "" := by
  obtain ⟨ra, rb, wa1, wb1, h1, h2, h3, h4, _, _, _, h8, h9, _⟩ :=
    success_body_injective Toolchain.since122 request42 { useCaseCore := some negativeProvider }
      { useCaseCore := some sevenProvider } negativeProvider sevenProvider "42" (-12) 7
      rfl (by decide) rfl rfl rfl rfl
  exact ⟨ra, rb, wa1, wb1, h1, h2, h3, h4, fun h => absurd (h8 h) (by decide), h9⟩

/-! ## Local mode with a failing provider -/

/-- C14: in local mode (flag true, non-empty ID) with a provider that fails on the ID,
`useCase` returns the empty string with a nil error, so `localController` does not take
its error branch: `Exec` prints the line "local" followed by one empty line and nothing
else.  The output does not depend on the provider's error, whose text is not printed. -/
theorem exec_local_provider_failure (json : Marshal) (evs : List APIGatewayProxyRequest)
    (ID : String) (p : Provider) (c : Int) (e : GoError) (w : World)
    (hID : ID ≠ "") (hc : p ID = (c, some e)) :
    (∃ w1, Exec json evs true ID (some p) w = some w1
        ∧ w1.stdout = w.stdout ++ ["local", ""]
        ∧ w1.calls = w.calls ++ [ID]
        ∧ w1.started = w.started
        ∧ w1.responses = w.responses)
    ∧ (∃ w2, useCase json ID (Println "local" { w with useCaseCore := some p }) =
        some (("", none), w2)) := by
  constructor
  · rw [Exec_local_id _ _ _ _ _ hID]
    obtain ⟨w1, h1, hcalls, hst, hresp, hout⟩ :=
      localController_of_provider json ID
        (Println "local" { w with useCaseCore := some p }) p rfl
    refine ⟨w1, h1, ?_, hcalls, hst, hresp⟩
    rw [hout, hc]
    simp [Println]
  · rw [useCase_of_provider json ID (Println "local" { w with useCaseCore := some p }) p rfl,
      hc]
    exact ⟨_, rfl⟩

/-- Witness for C14: ID "42" and a provider failing with the text "store unreachable". -/
theorem exec_local_provider_failure_witness :
    ∃ w1, Exec (jsonMarshal Toolchain.since122) [] true "42" (some downProvider) {} = some w1
      ∧ w1.stdout = ["local", ""]
      ∧ w1.calls = ["42"]
      ∧ w1.started = false
      ∧ w1.responses = [] :=
  (exec_local_provider_failure (jsonMarshal Toolchain.since122) [] "42"
      downProvider 3 ⟨"store unreachable"⟩ {}
    (by decide) rfl).1

end Frame
